import Mathlib

/-!
Verification of the Business-Card-OCR Apps Script backend.

The repository contains two variants of the script:
* `FINAL_APPS_SCRIPT.js` — the legacy variant: `doPost` dispatching
  `extract` / `save`, with `saveData` appending a 12-column row.
* an unnamed full variant — `doGet` / `doPost` dispatching
  `extract` / `save` / `read`, with `saveData` appending a 22-column row
  and `getSheetData` reading the whole sheet back.

The definitions below are a shallow embedding of those scripts.  External
effects (spreadsheet access, Drive folder access, blob storage) are modelled
by an environment of `Except`-valued oracles, so that the control flow of the
JavaScript (try/catch, early throws, the non-fatal photo-2 branch) is
reproduced exactly.  JavaScript values that can be absent are `Option`s, and
JavaScript truthiness of strings (`""` is falsy) is modelled explicitly.
-/

/-- A primitive JavaScript value that can sit in the loosely-typed
`is_validated` field of an extracted record: a boolean or a string. -/
inductive Prim where
  | pBool : Bool → Prim
  | pStr : String → Prim
deriving DecidableEq, Repr

/-- A spreadsheet cell value as produced by `appendRow`: a Date (modelled by
its numeric timestamp), a string, a primitive passed through verbatim, or the
blank cell that a JavaScript `undefined` argument produces. -/
inductive Cell where
  | time : Nat → Cell
  | str : String → Cell
  | prim : Prim → Cell
  | blank : Cell
deriving DecidableEq, Repr

/-- One entry of the `key_people` list: `{name, role, contact?}`. -/
structure KeyPerson where
  name : String
  role : String
  contact : Option String
deriving DecidableEq, Repr

/-- The loosely-shaped extracted record.  Every field is optional; `none`
models an absent JavaScript property. -/
structure ExtractedData where
  company : Option String := none
  industry : Option String := none
  name : Option String := none
  title : Option String := none
  phone : Option String := none
  email : Option String := none
  website : Option String := none
  social_media : Option String := none
  address : Option String := none
  services : Option String := none
  company_size : Option String := none
  established_year : Option String := none
  founded_year : Option String := none
  registration_status : Option String := none
  trust_score : Option String := none
  about_the_company : Option String := none
  location : Option String := none
  validation_source : Option String := none
  is_validated : Option Prim := none
  key_people : Option (List KeyPerson) := none
  founder : Option String := none
  ceo : Option String := none
  owner : Option String := none
deriving DecidableEq, Repr

/-- JavaScript `a || dflt` on an optional string: an absent or empty (falsy)
string falls back to the default. -/
def jsOrStr : Option String → String → String
  | none, dflt => dflt
  | some s, dflt => if s = "" then dflt else s

/-- JavaScript truthiness of an optional string: present and non-empty. -/
def truthyS : Option String → Bool
  | none => false
  | some s => s ≠ ""

/-- JavaScript truthiness of the optional `is_validated` value. -/
def truthyP : Option Prim → Bool
  | none => false
  | some (Prim.pBool b) => b
  | some (Prim.pStr s) => s ≠ ""

/-- Character-level model of `String.replace(/"/g, '""')`: every
double-quote character is replaced by two double-quote characters. -/
def escChars : List Char → List Char
  | [] => []
  | c :: cs => if c = '"' then '"' :: '"' :: escChars cs else c :: escChars cs

/-- String-level quote escaping used by the hyperlink-formula builder. -/
def escapeQuotes (s : String) : String :=
  String.mk (escChars s.data)

/-- Number of double-quote characters in a string. -/
def quoteCount (s : String) : Nat :=
  (s.data.filter (fun c => c = '"')).length

/-- The validation-cell logic of `saveData` (both variants are identical):
`validationLink = extractedData.validation_source || ""`;
`companyName = extractedData.company || "Source"`; then, when
`is_validated` and `validation_source` are both truthy, the cell becomes a
`=HYPERLINK(...)` formula with quotes doubled in URL and label. -/
def buildValidationCell (validation_source company : Option String)
    (is_validated : Option Prim) : String :=
  let validationLink := jsOrStr validation_source ""
  let companyName := jsOrStr company "Source"
  if truthyP is_validated && truthyS validation_source then
    "=HYPERLINK(\"" ++ escapeQuotes (validation_source.getD "") ++ "\", \""
      ++ escapeQuotes companyName ++ " Link\")"
  else
    validationLink

/-- The `is_validated` cell: the record's value passed through verbatim; a
JavaScript `undefined` argument to `appendRow` produces a blank cell. -/
def isValidatedCell : Option Prim → Cell
  | some p => Cell.prim p
  | none => Cell.blank

/-- The key-people flattening of the full-variant `saveData`: when a
`key_people` array is present, each entry is rendered `name (role)` with
` - contact` appended when `contact` is truthy and not `"Not Found"`, joined
by newlines; otherwise the discrete founder/ceo/owner fields are rendered. -/
def formatKeyPeople (d : ExtractedData) : String :=
  match d.key_people with
  | some ps =>
      String.intercalate "\n" (ps.map fun p =>
        let details := p.name ++ " (" ++ p.role ++ ")"
        match p.contact with
        | some c => if c ≠ "" && c ≠ "Not Found" then details ++ " - " ++ c else details
        | none => details)
  | none =>
      let parts : List String :=
        (if truthyS d.founder then ["Founder: " ++ d.founder.getD ""] else [])
          ++ (if truthyS d.ceo then ["CEO: " ++ d.ceo.getD ""] else [])
          ++ (if truthyS d.owner then ["Owner: " ++ d.owner.getD ""] else [])
      String.intercalate "\n" parts

/-- Environment of external effects for `saveData`: the timestamp taken at
the start of the call, the spreadsheet/sheet lookup, the Drive folder lookup,
and the blob store (filename and base64 payload to URL), each of which can
throw. -/
structure SaveEnv where
  timestamp : Nat
  sheetAccess : Except String Unit
  folderAccess : Except String Unit
  storeBlob : String → String → Except String String

/-- Filename of the mandatory photo: `"photo1_" + timestamp + ".png"`. -/
def fname1 (env : SaveEnv) : String :=
  "photo1_" ++ toString env.timestamp ++ ".png"

/-- Filename of the optional photo: `"photo2_" + timestamp + ".png"`. -/
def fname2 (env : SaveEnv) : String :=
  "photo2_" ++ toString env.timestamp ++ ".png"

/-- Model of JavaScript `String.prototype.trim`: strip leading and trailing
whitespace. -/
def jsTrim (s : String) : String :=
  String.mk (((s.data.dropWhile Char.isWhitespace).reverse.dropWhile Char.isWhitespace).reverse)

/-- The photo-2 branch of `saveData`: only attempted when `photo2Base64` is
truthy and non-blank after trimming; a failure is absorbed into a diagnostic
string instead of being rethrown. -/
def savePhoto2 (env : SaveEnv) (photo2Base64 : Option String) : String :=
  match photo2Base64 with
  | none => ""
  | some q =>
      if q ≠ "" && jsTrim q ≠ "" then
        match env.storeBlob (fname2 env) q with
        | .ok u => u
        | .error e => "Error saving image 2: " ++ e
      else ""

/-- The 12-cell row appended by the legacy `saveData` (columns A–L). -/
def legacyRow (timestamp : Nat) (url1 url2 : String) (d : ExtractedData) : List Cell :=
  [Cell.time timestamp,
   Cell.str url1,
   Cell.str url2,
   Cell.str (jsOrStr d.company ""),
   Cell.str (jsOrStr d.name ""),
   Cell.str (jsOrStr d.phone ""),
   Cell.str (jsOrStr d.email ""),
   Cell.str (jsOrStr d.address ""),
   isValidatedCell d.is_validated,
   Cell.str (buildValidationCell d.validation_source d.company d.is_validated),
   Cell.str (jsOrStr d.about_the_company ""),
   Cell.str (jsOrStr d.location "")]

/-- The 22-cell row appended by the full-variant `saveData` (columns A–V). -/
def extendedRow (timestamp : Nat) (url1 url2 : String) (d : ExtractedData) : List Cell :=
  [Cell.time timestamp,
   Cell.str url1,
   Cell.str url2,
   Cell.str (jsOrStr d.company ""),
   Cell.str (jsOrStr d.industry ""),
   Cell.str (jsOrStr d.name ""),
   Cell.str (jsOrStr d.title ""),
   Cell.str (jsOrStr d.phone ""),
   Cell.str (jsOrStr d.email ""),
   Cell.str (jsOrStr d.website ""),
   Cell.str (jsOrStr d.social_media ""),
   Cell.str (jsOrStr d.address ""),
   Cell.str (jsOrStr d.services ""),
   Cell.str (jsOrStr d.company_size ""),
   Cell.str (jsOrStr d.established_year (jsOrStr d.founded_year "")),
   Cell.str (jsOrStr d.registration_status ""),
   Cell.str (jsOrStr d.trust_score ""),
   Cell.str (formatKeyPeople d),
   isValidatedCell d.is_validated,
   Cell.str (buildValidationCell d.validation_source d.company d.is_validated),
   Cell.str (jsOrStr d.about_the_company ""),
   Cell.str (jsOrStr d.location "")]

/-- Legacy `saveData` (FINAL_APPS_SCRIPT.js): sheet access, folder access,
mandatory photo 1 (fatal on failure), optional photo 2 (absorbed failure),
validation-cell build, then a single 12-cell `appendRow`.  An `.error`
result models an exception thrown before the append, so no row is added. -/
def saveDataLegacy (env : SaveEnv) (d : ExtractedData)
    (photo1Base64 : String) (photo2Base64 : Option String) :
    Except String (List Cell × String) :=
  match env.sheetAccess with
  | .error e => .error ("FAILED to access Spreadsheet. Check SHEET_ID or Sheet Name. Details: " ++ e)
  | .ok _ =>
    match env.folderAccess with
    | .error e => .error ("FAILED to access Drive Folder. Check FOLDER_ID. Details: " ++ e)
    | .ok _ =>
      match env.storeBlob (fname1 env) photo1Base64 with
      | .error e => .error ("Failed to save Image 1: " ++ e)
      | .ok url1 =>
          .ok (legacyRow env.timestamp url1 (savePhoto2 env photo2Base64) d,
               "âœ… Data saved successfully!")

/-- Full-variant `saveData`: identical prelude, then a single 22-cell
`appendRow` including the extended columns and the flattened key people. -/
def saveDataExtended (env : SaveEnv) (d : ExtractedData)
    (photo1Base64 : String) (photo2Base64 : Option String) :
    Except String (List Cell × String) :=
  match env.sheetAccess with
  | .error e => .error ("FAILED to access Spreadsheet. Check SHEET_ID or Sheet Name. Details: " ++ e)
  | .ok _ =>
    match env.folderAccess with
    | .error e => .error ("FAILED to access Drive Folder. Check FOLDER_ID. Details: " ++ e)
    | .ok _ =>
      match env.storeBlob (fname1 env) photo1Base64 with
      | .error e => .error ("Failed to save Image 1: " ++ e)
      | .ok url1 =>
          .ok (extendedRow env.timestamp url1 (savePhoto2 env photo2Base64) d,
               "✅ Data saved successfully!")

/-- The data range of the sheet as returned by `getValues` / `getFormulas`:
rectangular grids of the same dimensions; a formula cell carries its formula
text, a non-formula cell carries `""` in the formula grid. -/
structure SheetData where
  values : List (List Cell)
  formulas : List (List String)

/-- Per-cell reconciliation `rowFormulas[index] || row[index]`: the formula
text wins when non-empty, otherwise the computed value is used. -/
def reconcile (f : String) (v : Cell) : Cell :=
  if f = "" then v else Cell.str f

/-- One dashboard row object: for each header index, the pair of the header
cell and the reconciled cell value (`obj[header] = rowFormulas[i] || row[i]`). -/
def sheetRowObj (headers row : List Cell) (rowF : List String) : List (Cell × Cell) :=
  (List.range headers.length).map fun idx =>
    (headers.getD idx Cell.blank, reconcile (rowF.getD idx "") (row.getD idx Cell.blank))

/-- `getSheetData`: returns `[]` when the sheet has fewer than 2 rows,
otherwise one object per data row (rows 1..), keyed by the header row. -/
def getSheetData (sd : SheetData) : List (List (Cell × Cell)) :=
  if sd.values.length < 2 then []
  else
    (List.range (sd.values.length - 1)).map fun j =>
      sheetRowObj (sd.values.headD []) (sd.values.getD (j + 1) [])
        (sd.formulas.getD (j + 1) [])

/-- The parsed POST body: its `action` and the payload fields the handlers
read.  Absent properties are `none`. -/
structure PostData where
  action : Option String := none
  extractedData : Option ExtractedData := none
  photo1Base64 : Option String := none
  photo2Base64 : Option String := none

/-- A POST request as `doPost` sees it: missing body
(`!e || !e.postData || !e.postData.contents`), a body on which `JSON.parse`
throws, or a parsed body. -/
inductive ReqBody where
  | noBody : ReqBody
  | badJson : String → ReqBody
  | withData : PostData → ReqBody

/-- The behaviour of the three pipeline handlers, each of which may throw:
`extractData`, `saveData` and `getSheetData` as seen from `doPost`. -/
structure Handlers (α : Type) where
  extractR : Option String → Except String α
  saveR : Option ExtractedData → Option String → Option String → Except String α
  readR : Unit → Except String α

/-- The response envelope `{success, data?, message?}`. -/
structure Envelope (α : Type) where
  success : Bool
  data : Option α := none
  message : Option String := none
deriving DecidableEq, Repr

/-- JavaScript string concatenation with a possibly-undefined value, as in
`"Invalid action specified: " + action`. -/
def jsShow : Option String → String
  | none => "undefined"
  | some s => s

/-- The try/catch boundary of `doPost`: a returned result is wrapped in
`{success: true, data}`, a thrown error is caught and reported as
`{success: false, message: "Script Error: " + err.message}`. -/
def wrapEnvelope {α : Type} : Except String α → Envelope α
  | .ok v => { success := true, data := some v }
  | .error e => { success := false, message := some ("Script Error: " ++ e) }

/-- The dispatch body of the full-variant `doPost`: validate the body, parse
it, and route the action to `extractData` / `saveData` / `getSheetData`;
anything else throws. -/
def dispatchExtended {α : Type} (h : Handlers α) (r : ReqBody) : Except String α :=
  match r with
  | .noBody => .error "Invalid POST request received."
  | .badJson e => .error e
  | .withData pd =>
      match pd.action with
      | some a =>
          if a = "extract" then h.extractR pd.photo1Base64
          else if a = "save" then h.saveR pd.extractedData pd.photo1Base64 pd.photo2Base64
          else if a = "read" then h.readR ()
          else .error ("Invalid action specified: " ++ a)
      | none => .error ("Invalid action specified: " ++ jsShow none)

/-- The dispatch body of the legacy `doPost`: as the full variant but without
the `read` action. -/
def dispatchLegacy {α : Type} (h : Handlers α) (r : ReqBody) : Except String α :=
  match r with
  | .noBody => .error "Invalid POST request received."
  | .badJson e => .error e
  | .withData pd =>
      match pd.action with
      | some a =>
          if a = "extract" then h.extractR pd.photo1Base64
          else if a = "save" then h.saveR pd.extractedData pd.photo1Base64 pd.photo2Base64
          else .error ("Invalid action specified: " ++ a)
      | none => .error ("Invalid action specified: " ++ jsShow none)

/-- `doPost` of the full variant. -/
def doPostExtended {α : Type} (h : Handlers α) (r : ReqBody) : Envelope α :=
  wrapEnvelope (dispatchExtended h r)

/-- `doPost` of the legacy variant. -/
def doPostLegacy {α : Type} (h : Handlers α) (r : ReqBody) : Envelope α :=
  wrapEnvelope (dispatchLegacy h r)

/-- Row layout described by the extended-schema claim, written from the
spec's words for comparison with `extendedRow`: the twelve legacy columns in
their legacy order with the ten new columns inserted as one group before the
trailing is_validated / validation-link / about / location group. -/
def c8ClaimRow (timestamp : Nat) (url1 url2 : String) (d : ExtractedData) : List Cell :=
  [Cell.time timestamp,
   Cell.str url1,
   Cell.str url2,
   Cell.str (jsOrStr d.company ""),
   Cell.str (jsOrStr d.name ""),
   Cell.str (jsOrStr d.phone ""),
   Cell.str (jsOrStr d.email ""),
   Cell.str (jsOrStr d.address ""),
   Cell.str (jsOrStr d.industry ""),
   Cell.str (jsOrStr d.title ""),
   Cell.str (jsOrStr d.website ""),
   Cell.str (jsOrStr d.social_media ""),
   Cell.str (jsOrStr d.services ""),
   Cell.str (jsOrStr d.company_size ""),
   Cell.str (jsOrStr d.established_year (jsOrStr d.founded_year "")),
   Cell.str (jsOrStr d.registration_status ""),
   Cell.str (jsOrStr d.trust_score ""),
   Cell.str (formatKeyPeople d),
   isValidatedCell d.is_validated,
   Cell.str (buildValidationCell d.validation_source d.company d.is_validated),
   Cell.str (jsOrStr d.about_the_company ""),
   Cell.str (jsOrStr d.location "")]

/-- A concrete save environment in which every external effect succeeds,
except that the blob store rejects the payload `"BAD"`. -/
def env0 : SaveEnv :=
  { timestamp := 7
    sheetAccess := .ok ()
    folderAccess := .ok ()
    storeBlob := fun _ b => if b = "BAD" then .error "bad blob" else .ok ("url-" ++ b) }

/-- A concrete record with every field absent. -/
def d0 : ExtractedData := {}

/-- A concrete record with an industry and a person name, distinguishing the
actual extended column order from the grouped layout of the claim. -/
def d8 : ExtractedData := { industry := some "Tech", name := some "Jo" }

/-- A concrete validated record with a quote in the company name, as in the
spec's hyperlink scenario. -/
def dAcme : ExtractedData :=
  { company := some "Acme \"A\" Co"
    validation_source := some "http://x.test"
    is_validated := some (Prim.pBool true) }

/-- A concrete record with one key person whose contact is the sentinel
"Not Found", as in the spec's key-people scenario. -/
def dJo : ExtractedData :=
  { key_people := some [⟨"Jo", "CEO", some "Not Found"⟩] }

/-- A concrete handler behaviour: extraction and read succeed, the save
pipeline throws. -/
def handlers0 : Handlers String :=
  ⟨fun _ => .ok "extracted", fun _ _ _ => .error "saveData failed", fun _ => .ok "rows"⟩

/-- A concrete POST body requesting the save action. -/
def reqSave : ReqBody := .withData { action := some "save" }

/-- A concrete record with only a `founded_year`. -/
def dFY : ExtractedData := { founded_year := some "1999" }

/-! ## Helper lemmas -/

theorem saveDataLegacy_ok_iff (env : SaveEnv) (d : ExtractedData) (p1 : String) (p2 : Option String)
    (row : List Cell) (msg : String) :
    saveDataLegacy env d p1 p2 = .ok (row, msg) ↔
      env.sheetAccess = .ok () ∧ env.folderAccess = .ok () ∧
      ∃ url1, env.storeBlob (fname1 env) p1 = .ok url1 ∧
        row = legacyRow env.timestamp url1 (savePhoto2 env p2) d ∧
        msg = "âœ… Data saved successfully!" := by
  unfold saveDataLegacy
  cases hs : env.sheetAccess with
  | error e => simp
  | ok u =>
    cases hf : env.folderAccess with
    | error e => simp
    | ok v =>
      cases hb : env.storeBlob (fname1 env) p1 with
      | error e => simp [hb]
      | ok url1 =>
        simp [hb]
        constructor
        · rintro ⟨h1, h2⟩
          exact ⟨h1.symm, h2.symm⟩
        · rintro ⟨h1, h2⟩
          exact ⟨h1.symm, h2.symm⟩

theorem saveDataExtended_ok_iff (env : SaveEnv) (d : ExtractedData) (p1 : String) (p2 : Option String)
    (row : List Cell) (msg : String) :
    saveDataExtended env d p1 p2 = .ok (row, msg) ↔
      env.sheetAccess = .ok () ∧ env.folderAccess = .ok () ∧
      ∃ url1, env.storeBlob (fname1 env) p1 = .ok url1 ∧
        row = extendedRow env.timestamp url1 (savePhoto2 env p2) d ∧
        msg = "✅ Data saved successfully!" := by
  unfold saveDataExtended
  cases hs : env.sheetAccess with
  | error e => simp
  | ok u =>
    cases hf : env.folderAccess with
    | error e => simp
    | ok v =>
      cases hb : env.storeBlob (fname1 env) p1 with
      | error e => simp [hb]
      | ok url1 =>
        simp [hb]
        constructor
        · rintro ⟨h1, h2⟩
          exact ⟨h1.symm, h2.symm⟩
        · rintro ⟨h1, h2⟩
          exact ⟨h1.symm, h2.symm⟩

theorem escChars_quote_doubling (l : List Char) :
    ((escChars l).filter (fun c => c = '"')).length
      = 2 * (l.filter (fun c => c = '"')).length := by
  induction l with
  | nil => simp [escChars]
  | cons c cs ih =>
    by_cases hc : c = '"'
    · subst hc
      simp [escChars, List.filter, ih]
      ring
    · simp [escChars, hc, List.filter, ih]

theorem quoteCount_escapeQuotes (s : String) :
    quoteCount (escapeQuotes s) = 2 * quoteCount s := by
  unfold quoteCount escapeQuotes
  exact escChars_quote_doubling s.data

/-! ## Claim theorems -/

/-- C1: every successful save appends a row of exactly the active schema's
column count (12 for the legacy variant, 22 for the extended variant), and
every optional string field absent from the record yields the empty string in
its cell, never a null/undefined cell. -/
theorem save_row_length_and_empty_defaults
    (env : SaveEnv) (d : ExtractedData) (p1 : String) (p2 : Option String)
    (rowL rowE : List Cell) (mL mE : String)
    (hL : saveDataLegacy env d p1 p2 = .ok (rowL, mL))
    (hE : saveDataExtended env d p1 p2 = .ok (rowE, mE)) :
    rowL.length = 12 ∧ rowE.length = 22 ∧
    (d.company = none → rowL.getD 3 Cell.blank = Cell.str "" ∧ rowE.getD 3 Cell.blank = Cell.str "") ∧
    (d.name = none → rowL.getD 4 Cell.blank = Cell.str "" ∧ rowE.getD 5 Cell.blank = Cell.str "") ∧
    (d.phone = none → rowL.getD 5 Cell.blank = Cell.str "" ∧ rowE.getD 7 Cell.blank = Cell.str "") ∧
    (d.email = none → rowL.getD 6 Cell.blank = Cell.str "" ∧ rowE.getD 8 Cell.blank = Cell.str "") ∧
    (d.address = none → rowL.getD 7 Cell.blank = Cell.str "" ∧ rowE.getD 11 Cell.blank = Cell.str "") ∧
    (d.about_the_company = none → rowL.getD 10 Cell.blank = Cell.str "" ∧ rowE.getD 20 Cell.blank = Cell.str "") ∧
    (d.location = none → rowL.getD 11 Cell.blank = Cell.str "" ∧ rowE.getD 21 Cell.blank = Cell.str "") ∧
    (d.industry = none → rowE.getD 4 Cell.blank = Cell.str "") ∧
    (d.title = none → rowE.getD 6 Cell.blank = Cell.str "") ∧
    (d.website = none → rowE.getD 9 Cell.blank = Cell.str "") ∧
    (d.social_media = none → rowE.getD 10 Cell.blank = Cell.str "") ∧
    (d.services = none → rowE.getD 12 Cell.blank = Cell.str "") ∧
    (d.company_size = none → rowE.getD 13 Cell.blank = Cell.str "") ∧
    (d.established_year = none → d.founded_year = none → rowE.getD 14 Cell.blank = Cell.str "") ∧
    (d.registration_status = none → rowE.getD 15 Cell.blank = Cell.str "") ∧
    (d.trust_score = none → rowE.getD 16 Cell.blank = Cell.str "") := by
  obtain ⟨-, -, u1, -, hrow, -⟩ := (saveDataLegacy_ok_iff env d p1 p2 rowL mL).mp hL
  obtain ⟨-, -, u2, -, hrowE, -⟩ := (saveDataExtended_ok_iff env d p1 p2 rowE mE).mp hE
  subst hrow hrowE
  refine ⟨rfl, rfl, ?_, ?_, ?_, ?_, ?_, ?_, ?_, ?_, ?_, ?_, ?_, ?_, ?_, ?_, ?_, ?_⟩ <;>
    · intros
      simp_all [legacyRow, extendedRow, jsOrStr]

/-- Witness for C1: a concrete fully-absent record saved through a concrete
succeeding environment yields the 12- and 22-cell rows with empty strings. -/
theorem save_row_length_and_empty_defaults_witness :
    saveDataLegacy env0 d0 "img" none
        = .ok (legacyRow 7 "url-img" "" d0, "âœ… Data saved successfully!") ∧
    saveDataExtended env0 d0 "img" none
        = .ok (extendedRow 7 "url-img" "" d0, "✅ Data saved successfully!") ∧
    (legacyRow 7 "url-img" "" d0).length = 12 ∧
    (extendedRow 7 "url-img" "" d0).length = 22 ∧
    (legacyRow 7 "url-img" "" d0).getD 3 Cell.blank = Cell.str "" := by
  have h := save_row_length_and_empty_defaults env0 d0 "img" none
      (legacyRow 7 "url-img" "" d0) (extendedRow 7 "url-img" "" d0)
      "âœ… Data saved successfully!" "✅ Data saved successfully!" rfl rfl
  exact ⟨rfl, rfl, h.1, h.2.1, (h.2.2.1 rfl).1⟩

/-- C2: the validation cell is the raw (possibly empty) `validation_source`
when `is_validated` is falsy or the source is empty, and otherwise a
HYPERLINK formula embedding the quote-doubled URL and the quote-doubled
company label (defaulting to "Source") followed by " Link"; in particular
the quoted-company scenario produces the expected formula. -/
theorem validation_cell_spec :
    (∀ env d p1 p2 row msg, saveDataLegacy env d p1 p2 = .ok (row, msg) →
        row.getD 9 Cell.blank
          = Cell.str (buildValidationCell d.validation_source d.company d.is_validated)) ∧
    (∀ vs c iv, truthyP iv = false ∨ truthyS vs = false →
        buildValidationCell vs c iv = jsOrStr vs "") ∧
    (∀ vs c iv, truthyP iv = true → truthyS vs = true →
        buildValidationCell vs c iv
          = "=HYPERLINK(\"" ++ escapeQuotes (vs.getD "") ++ "\", \""
              ++ escapeQuotes (jsOrStr c "Source") ++ " Link\")") ∧
    buildValidationCell dAcme.validation_source dAcme.company dAcme.is_validated
      = "=HYPERLINK(\"http://x.test\", \"Acme \"\"A\"\" Co Link\")" := by
  refine ⟨?_, ?_, ?_, rfl⟩
  · intro env d p1 p2 row msg h
    obtain ⟨-, -, u1, -, hrow, -⟩ := (saveDataLegacy_ok_iff env d p1 p2 row msg).mp h
    subst hrow
    rfl
  · intro vs c iv h
    rcases h with h | h <;> simp [buildValidationCell, h]
  · intro vs c iv h1 h2
    simp [buildValidationCell, h1, h2]

/-- Witness for C2: the quoted-company scenario evaluated through a concrete
successful save, and the falsy case on a concrete empty source. -/
theorem validation_cell_spec_witness :
    (legacyRow 7 "url-img" "" dAcme).getD 9 Cell.blank
      = Cell.str "=HYPERLINK(\"http://x.test\", \"Acme \"\"A\"\" Co Link\")" ∧
    buildValidationCell (some "") (some "L") none = "" := by
  constructor
  · have h1 := validation_cell_spec.1 env0 dAcme "img" none (legacyRow 7 "url-img" "" dAcme)
        "âœ… Data saved successfully!" rfl
    rw [h1, validation_cell_spec.2.2.2]
  · exact validation_cell_spec.2.1 (some "") (some "L") none (Or.inl rfl)

/-- C3: a blob store failure on the mandatory photo 1 aborts the save with
the attachment error and no row is produced (the `.error` result models the
exception thrown before `appendRow`), while a failure on the optional photo 2
is absorbed: the diagnostic string is substituted in the photo-2 cell and the
row is still appended. -/
theorem photo_failure_policy
    (env : SaveEnv) (d : ExtractedData) (p1 q e1 e2 u1 : String)
    (hs : env.sheetAccess = .ok ()) (hf : env.folderAccess = .ok ()) :
    (env.storeBlob (fname1 env) p1 = .error e1 →
      saveDataLegacy env d p1 (some q) = .error ("Failed to save Image 1: " ++ e1) ∧
      saveDataExtended env d p1 (some q) = .error ("Failed to save Image 1: " ++ e1)) ∧
    (env.storeBlob (fname1 env) p1 = .ok u1 →
     q ≠ "" → jsTrim q ≠ "" →
     env.storeBlob (fname2 env) q = .error e2 →
      saveDataLegacy env d p1 (some q)
        = .ok (legacyRow env.timestamp u1 ("Error saving image 2: " ++ e2) d,
               "âœ… Data saved successfully!") ∧
      saveDataExtended env d p1 (some q)
        = .ok (extendedRow env.timestamp u1 ("Error saving image 2: " ++ e2) d,
               "✅ Data saved successfully!")) := by
  constructor
  · intro h1
    constructor <;> simp [saveDataLegacy, saveDataExtended, hs, hf, h1]
  · intro h1 hq hqt h2
    constructor <;>
      simp [saveDataLegacy, saveDataExtended, hs, hf, h1, savePhoto2, hq, hqt, h2]

/-- Witness for C3: a concrete invalid photo-1 payload aborts the save, and a
concrete invalid photo-2 payload leaves a diagnostic cell in an appended
row. -/
theorem photo_failure_policy_witness :
    saveDataLegacy env0 d0 "BAD" (some "q") = .error "Failed to save Image 1: bad blob" ∧
    saveDataExtended env0 d0 "img" (some "BAD")
      = .ok (extendedRow 7 "url-img" "Error saving image 2: bad blob" d0,
             "✅ Data saved successfully!") := by
  constructor
  · exact ((photo_failure_policy env0 d0 "BAD" "q" "bad blob" "" "" rfl rfl).1 rfl).1
  · exact ((photo_failure_policy env0 d0 "img" "BAD" "" "bad blob" "url-img" rfl rfl).2
      rfl (by decide) (by decide) rfl).2

/-- Helper: indexing a map over `List.range`. -/
theorem getD_map_range {α : Type} {n j : Nat} (f : Nat → α) (dflt : α) (h : j < n) :
    ((List.range n).map f).getD j dflt = f j := by
  rw [List.getD_eq_getElem?_getD, List.getElem?_map, List.getElem?_range h]
  simp

/-- C4: `getSheetData` returns the empty sequence (not an error) whenever the
sheet has fewer than 2 rows, and otherwise one object per data row, in
insertion order; every cell independently takes the stored formula text when
a formula exists (non-empty formula string) for that cell and the computed
value otherwise. -/
theorem getSheetData_spec (sd : SheetData) :
    (sd.values.length < 2 → getSheetData sd = []) ∧
    (2 ≤ sd.values.length → (getSheetData sd).length = sd.values.length - 1) ∧
    (∀ j idx, j + 1 < sd.values.length → idx < (sd.values.headD []).length →
      ((getSheetData sd).getD j []).getD idx (Cell.blank, Cell.blank)
        = ((sd.values.headD []).getD idx Cell.blank,
           if (sd.formulas.getD (j + 1) []).getD idx "" = ""
           then (sd.values.getD (j + 1) []).getD idx Cell.blank
           else Cell.str ((sd.formulas.getD (j + 1) []).getD idx ""))) := by
  refine ⟨?_, ?_, ?_⟩
  · intro h
    simp [getSheetData, h]
  · intro h
    simp [getSheetData, Nat.not_lt.mpr h]
  · intro j idx hj hidx
    have h2 : ¬ sd.values.length < 2 := by omega
    have hj' : j < sd.values.length - 1 := by omega
    simp only [getSheetData, if_neg h2]
    unfold sheetRowObj
    rw [getD_map_range _ _ hj', getD_map_range _ _ hidx]
    simp [reconcile]

/-- Witness for C4: a header-only sheet reads back empty, and on a concrete
two-row sheet the formula cell wins per-cell while the plain cell keeps its
value. -/
theorem getSheetData_spec_witness :
    getSheetData ⟨[[Cell.str "h1", Cell.str "h2"]], [["", ""]]⟩ = [] ∧
    ((getSheetData ⟨[[Cell.str "h1", Cell.str "h2"], [Cell.str "v1", Cell.str "v2"]],
        [["", ""], ["", "=F()"]]⟩).getD 0 []).getD 1 (Cell.blank, Cell.blank)
      = (Cell.str "h2", Cell.str "=F()") := by
  constructor
  · exact (getSheetData_spec _).1 (by decide)
  · have h := (getSheetData_spec ⟨[[Cell.str "h1", Cell.str "h2"], [Cell.str "v1", Cell.str "v2"]],
        [["", ""], ["", "=F()"]]⟩).2.2 0 1 (by decide) (by decide)
    simpa using h

/-- C5: the `is_validated` cell (column I legacy, column S extended) passes
the record's boolean/string value through verbatim when present, and is the
blank cell when the validation flag is absent from the record. -/
theorem is_validated_passthrough
    (env : SaveEnv) (d : ExtractedData) (p1 : String) (p2 : Option String)
    (rowL rowE : List Cell) (mL mE : String)
    (hL : saveDataLegacy env d p1 p2 = .ok (rowL, mL))
    (hE : saveDataExtended env d p1 p2 = .ok (rowE, mE)) :
    (∀ p, d.is_validated = some p →
        rowL.getD 8 Cell.blank = Cell.prim p ∧ rowE.getD 18 Cell.blank = Cell.prim p) ∧
    (d.is_validated = none →
        rowL.getD 8 Cell.blank = Cell.blank ∧ rowE.getD 18 Cell.blank = Cell.blank) := by
  obtain ⟨-, -, u1, -, hrow, -⟩ := (saveDataLegacy_ok_iff env d p1 p2 rowL mL).mp hL
  obtain ⟨-, -, u2, -, hrowE, -⟩ := (saveDataExtended_ok_iff env d p1 p2 rowE mE).mp hE
  subst hrow hrowE
  constructor
  · intro p hp
    simp [legacyRow, extendedRow, isValidatedCell, hp]
  · intro hp
    simp [legacyRow, extendedRow, isValidatedCell, hp]

/-- Witness for C5: a concrete boolean flag passes through and a concrete
absent flag leaves the blank cell. -/
theorem is_validated_passthrough_witness :
    (legacyRow 7 "url-img" "" dAcme).getD 8 Cell.blank = Cell.prim (Prim.pBool true) ∧
    (extendedRow 7 "url-img" "" d0).getD 18 Cell.blank = Cell.blank := by
  constructor
  · exact ((is_validated_passthrough env0 dAcme "img" none
      (legacyRow 7 "url-img" "" dAcme) (extendedRow 7 "url-img" "" dAcme)
      "âœ… Data saved successfully!" "✅ Data saved successfully!" rfl rfl).1
        (Prim.pBool true) rfl).1
  · exact ((is_validated_passthrough env0 d0 "img" none
      (legacyRow 7 "url-img" "" d0) (extendedRow 7 "url-img" "" d0)
      "âœ… Data saved successfully!" "✅ Data saved successfully!" rfl rfl).2 rfl).2

/-- C7: in the extended schema the key-people cell renders a present
`key_people` list in order as `{name} ({role})` with ` - {contact}` appended
only for a truthy contact different from the sentinel "Not Found", joined by
newlines; with no list it falls back to the non-empty founder/ceo/owner fields
in that fixed order; the sentinel scenario yields exactly "Jo (CEO)". -/
theorem key_people_cell_spec
    (env : SaveEnv) (d : ExtractedData) (p1 : String) (p2 : Option String)
    (row : List Cell) (msg : String)
    (hE : saveDataExtended env d p1 p2 = .ok (row, msg)) :
    row.getD 17 Cell.blank = Cell.str (formatKeyPeople d) ∧
    (∀ ps, d.key_people = some ps →
      formatKeyPeople d = String.intercalate "\n" (ps.map fun p =>
        p.name ++ " (" ++ p.role ++ ")"
          ++ (match p.contact with
              | some c => if c ≠ "" && c ≠ "Not Found" then " - " ++ c else ""
              | none => ""))) ∧
    (d.key_people = none →
      formatKeyPeople d = String.intercalate "\n"
        ((if truthyS d.founder then ["Founder: " ++ d.founder.getD ""] else [])
          ++ (if truthyS d.ceo then ["CEO: " ++ d.ceo.getD ""] else [])
          ++ (if truthyS d.owner then ["Owner: " ++ d.owner.getD ""] else []))) ∧
    formatKeyPeople { key_people := some [⟨"Jo", "CEO", some "Not Found"⟩] } = "Jo (CEO)" := by
  obtain ⟨-, -, u1, -, hrow, -⟩ := (saveDataExtended_ok_iff env d p1 p2 row msg).mp hE
  subst hrow
  refine ⟨by simp [extendedRow], ?_, ?_, rfl⟩
  · intro ps hps
    simp only [formatKeyPeople, hps]
    apply congrArg
    apply List.map_congr_left
    intro p hp
    cases hc : p.contact with
    | none => simp [hc]
    | some c =>
      simp only [hc]
      by_cases h1 : (c ≠ "" && c ≠ "Not Found") = true
      · simp only [if_pos h1]
        exact String.append_assoc _ " - " c
      · simp only [if_neg h1]
        exact (String.append_empty _).symm
  · intro hps
    simp [formatKeyPeople, hps]

/-- Witness for C7: the sentinel scenario evaluated through a concrete
successful extended save. -/
theorem key_people_cell_spec_witness :
    (extendedRow 7 "url-img" "" dJo).getD 17 Cell.blank = Cell.str "Jo (CEO)" := by
  have h := key_people_cell_spec env0 dJo "img" none (extendedRow 7 "url-img" "" dJo)
      "✅ Data saved successfully!" rfl
  rw [h.1]
  rfl

/-- Helper: `jsOrStr` characterised through truthiness. -/
theorem jsOrStr_eq (o : Option String) (dflt : String) :
    jsOrStr o dflt = if truthyS o then o.getD "" else dflt := by
  cases o with
  | none => simp [jsOrStr, truthyS]
  | some s => by_cases h : s = "" <;> simp [jsOrStr, truthyS, h]

/-- Helper: a truthy optional string is non-empty. -/
theorem truthyS_getD_ne (o : Option String) (h : truthyS o = true) : o.getD "" ≠ "" := by
  cases o with
  | none => simp [truthyS] at h
  | some s => simpa [truthyS] using h

/-- C6 counterexample: a validated input whose sourceUrl already contains a
doubled (escaped) quote has that quote pair doubled again by
`buildValidationCell` — the formula embeds four quote characters, not the
claimed unchanged two. -/
theorem reescape_counterexample :
    buildValidationCell (some "a\"\"b") (some "C") (some (Prim.pBool true))
        = "=HYPERLINK(\"a\"\"\"\"b\", \"C Link\")" ∧
    "=HYPERLINK(\"a\"\"\"\"b\", \"C Link\")" ≠ "=HYPERLINK(\"a\"\"b\", \"C Link\")" :=
  ⟨rfl, by decide⟩

/-- C6 amended: the quote-doubling of `buildValidationCell` is applied
uniformly to every double-quote character (doubling the quote count each
time), so a URL already containing escaped quotes has them escaped again —
the escaping is not idempotent on any string containing a quote. -/
theorem reescape_doubles_quotes :
    (∀ s, quoteCount (escapeQuotes s) = 2 * quoteCount s) ∧
    (∀ url c iv, truthyP iv = true → truthyS url = true →
        buildValidationCell url c iv
          = "=HYPERLINK(\"" ++ escapeQuotes (url.getD "") ++ "\", \""
              ++ escapeQuotes (jsOrStr c "Source") ++ " Link\")") ∧
    (∀ s, 0 < quoteCount s → escapeQuotes (escapeQuotes s) ≠ escapeQuotes s) := by
  refine ⟨quoteCount_escapeQuotes, ?_, ?_⟩
  · intro url c iv h1 h2
    simp [buildValidationCell, h1, h2]
  · intro s hs heq
    have h1 := quoteCount_escapeQuotes s
    have h2 := quoteCount_escapeQuotes (escapeQuotes s)
    rw [heq] at h2
    omega

/-- Witness for the amended C6: concrete non-idempotence and concrete quote
doubling. -/
theorem reescape_doubles_quotes_witness :
    escapeQuotes (escapeQuotes "a\"b") ≠ escapeQuotes "a\"b" ∧
    quoteCount (escapeQuotes "a\"\"b") = 2 * quoteCount "a\"\"b" :=
  ⟨reescape_doubles_quotes.2.2 "a\"b" (by decide), reescape_doubles_quotes.1 "a\"\"b"⟩

/-- C8 counterexample: on a record with `industry = "Tech"` and
`name = "Jo"`, the actually appended extended row has the industry at
index 4 (between company and name), while the claimed grouped layout
(legacy columns first, then the ten new columns before the trailing group)
would have the name there; the two layouts differ. -/
theorem extended_layout_counterexample :
    saveDataExtended env0 d8 "img" none
      = .ok (extendedRow 7 "url-img" "" d8, "✅ Data saved successfully!") ∧
    (extendedRow 7 "url-img" "" d8).getD 4 Cell.blank = Cell.str "Tech" ∧
    (c8ClaimRow 7 "url-img" "" d8).getD 4 Cell.blank = Cell.str "Jo" ∧
    extendedRow 7 "url-img" "" d8 ≠ c8ClaimRow 7 "url-img" "" d8 :=
  ⟨rfl, rfl, rfl, by decide⟩

/-- C8 amended: the 22-cell extended row keeps the twelve legacy columns in
their legacy relative order (extracting positions 0,1,2,3,5,7,8,11,18,19,20,21
yields exactly the legacy row for the same inputs), but the new columns are
interleaved rather than inserted as one group: industry follows company,
title follows name, website and social_media follow email, and services,
company_size, established_year, registration_status, trust_score and
key_people sit as a group after address, before the trailing
is_validated / validation-link / about / location group. -/
theorem extended_layout_amended
    (env : SaveEnv) (d : ExtractedData) (p1 : String) (p2 : Option String)
    (rowE rowL : List Cell) (mE mL : String)
    (hE : saveDataExtended env d p1 p2 = .ok (rowE, mE))
    (hL : saveDataLegacy env d p1 p2 = .ok (rowL, mL)) :
    rowE.length = 22 ∧
    [rowE.getD 0 Cell.blank, rowE.getD 1 Cell.blank, rowE.getD 2 Cell.blank,
     rowE.getD 3 Cell.blank, rowE.getD 5 Cell.blank, rowE.getD 7 Cell.blank,
     rowE.getD 8 Cell.blank, rowE.getD 11 Cell.blank, rowE.getD 18 Cell.blank,
     rowE.getD 19 Cell.blank, rowE.getD 20 Cell.blank, rowE.getD 21 Cell.blank] = rowL ∧
    rowE.getD 4 Cell.blank = Cell.str (jsOrStr d.industry "") ∧
    rowE.getD 6 Cell.blank = Cell.str (jsOrStr d.title "") ∧
    rowE.getD 9 Cell.blank = Cell.str (jsOrStr d.website "") ∧
    rowE.getD 10 Cell.blank = Cell.str (jsOrStr d.social_media "") ∧
    rowE.getD 12 Cell.blank = Cell.str (jsOrStr d.services "") ∧
    rowE.getD 13 Cell.blank = Cell.str (jsOrStr d.company_size "") ∧
    rowE.getD 14 Cell.blank = Cell.str (jsOrStr d.established_year (jsOrStr d.founded_year "")) ∧
    rowE.getD 15 Cell.blank = Cell.str (jsOrStr d.registration_status "") ∧
    rowE.getD 16 Cell.blank = Cell.str (jsOrStr d.trust_score "") ∧
    rowE.getD 17 Cell.blank = Cell.str (formatKeyPeople d) := by
  obtain ⟨-, -, u1, hb1, hrowE, -⟩ := (saveDataExtended_ok_iff env d p1 p2 rowE mE).mp hE
  obtain ⟨-, -, u2, hb2, hrowL, -⟩ := (saveDataLegacy_ok_iff env d p1 p2 rowL mL).mp hL
  rw [hb1] at hb2
  injection hb2 with hu
  subst hu hrowE hrowL
  exact ⟨rfl, rfl, rfl, rfl, rfl, rfl, rfl, rfl, rfl, rfl, rfl, rfl⟩

/-- Witness for the amended C8 at a concrete record and environment. -/
theorem extended_layout_amended_witness :
    (extendedRow 7 "url-img" "" d8).length = 22 ∧
    [(extendedRow 7 "url-img" "" d8).getD 0 Cell.blank,
     (extendedRow 7 "url-img" "" d8).getD 1 Cell.blank,
     (extendedRow 7 "url-img" "" d8).getD 2 Cell.blank,
     (extendedRow 7 "url-img" "" d8).getD 3 Cell.blank,
     (extendedRow 7 "url-img" "" d8).getD 5 Cell.blank,
     (extendedRow 7 "url-img" "" d8).getD 7 Cell.blank,
     (extendedRow 7 "url-img" "" d8).getD 8 Cell.blank,
     (extendedRow 7 "url-img" "" d8).getD 11 Cell.blank,
     (extendedRow 7 "url-img" "" d8).getD 18 Cell.blank,
     (extendedRow 7 "url-img" "" d8).getD 19 Cell.blank,
     (extendedRow 7 "url-img" "" d8).getD 20 Cell.blank,
     (extendedRow 7 "url-img" "" d8).getD 21 Cell.blank] = legacyRow 7 "url-img" "" d8 := by
  have h := extended_layout_amended env0 d8 "img" none (extendedRow 7 "url-img" "" d8)
      (legacyRow 7 "url-img" "" d8) "✅ Data saved successfully!"
      "âœ… Data saved successfully!" rfl rfl
  exact ⟨h.1, h.2.1⟩

/-- C9: both `doPost` variants always return a well-formed envelope: a
returned handler value yields `{success: true, data}`, and every internal
error — missing body, unparsable JSON, unknown action, or a handler throw —
is caught and reported as `{success: false, message: "Script Error: ..."}`;
nothing re-raises out of the handler, which is a total function into
envelopes. -/
theorem doPost_envelope {α : Type} (h : Handlers α) (r : ReqBody) :
    (∀ v, dispatchExtended h r = .ok v →
        doPostExtended h r = { success := true, data := some v, message := none }) ∧
    (∀ e, dispatchExtended h r = .error e →
        doPostExtended h r
          = { success := false, data := none, message := some ("Script Error: " ++ e) }) ∧
    (∀ v, dispatchLegacy h r = .ok v →
        doPostLegacy h r = { success := true, data := some v, message := none }) ∧
    (∀ e, dispatchLegacy h r = .error e →
        doPostLegacy h r
          = { success := false, data := none, message := some ("Script Error: " ++ e) }) ∧
    ((doPostExtended h r).success = false →
        ∃ e, (doPostExtended h r).message = some ("Script Error: " ++ e)) ∧
    ((doPostExtended h r).success = true → (doPostExtended h r).data.isSome = true) := by
  refine ⟨?_, ?_, ?_, ?_, ?_, ?_⟩
  · intro v hv
    simp [doPostExtended, wrapEnvelope, hv]
  · intro e he
    simp [doPostExtended, wrapEnvelope, he]
  · intro v hv
    simp [doPostLegacy, wrapEnvelope, hv]
  · intro e he
    simp [doPostLegacy, wrapEnvelope, he]
  · cases hres : dispatchExtended h r with
    | ok v => simp [doPostExtended, wrapEnvelope, hres]
    | error e =>
      intro _
      exact ⟨e, by simp [doPostExtended, wrapEnvelope, hres]⟩
  · cases hres : dispatchExtended h r with
    | ok v => simp [doPostExtended, wrapEnvelope, hres]
    | error e => simp [doPostExtended, wrapEnvelope, hres]

/-- Witness for C9: a concrete throwing save handler and a concrete unknown
action both produce failure envelopes. -/
theorem doPost_envelope_witness :
    doPostExtended handlers0 reqSave
      = { success := false, data := none,
          message := some "Script Error: saveData failed" } ∧
    doPostLegacy handlers0 (.withData { action := some "read" })
      = { success := false, data := none,
          message := some "Script Error: Invalid action specified: read" } := by
  constructor
  · exact (doPost_envelope handlers0 reqSave).2.1 "saveData failed" rfl
  · exact (doPost_envelope handlers0 (.withData { action := some "read" })).2.2.2.1
      "Invalid action specified: read" rfl

/-- C10: in the extended schema, when `established_year` is absent or empty
and `founded_year` is truthy, the established-year column (index 14) receives
the `founded_year` value; when `established_year` is truthy it wins; and the
cell is the empty string exactly when both fields are absent or empty. -/
theorem established_year_fallback
    (env : SaveEnv) (d : ExtractedData) (p1 : String) (p2 : Option String)
    (row : List Cell) (msg : String)
    (hE : saveDataExtended env d p1 p2 = .ok (row, msg)) :
    (truthyS d.established_year = false → truthyS d.founded_year = true →
        row.getD 14 Cell.blank = Cell.str (d.founded_year.getD "")) ∧
    (truthyS d.established_year = true →
        row.getD 14 Cell.blank = Cell.str (d.established_year.getD "")) ∧
    (row.getD 14 Cell.blank = Cell.str "" ↔
        truthyS d.established_year = false ∧ truthyS d.founded_year = false) := by
  obtain ⟨-, -, u1, -, hrow, -⟩ := (saveDataExtended_ok_iff env d p1 p2 row msg).mp hE
  subst hrow
  have hcell : (extendedRow env.timestamp u1 (savePhoto2 env p2) d).getD 14 Cell.blank
      = Cell.str (jsOrStr d.established_year (jsOrStr d.founded_year "")) := rfl
  rw [hcell, jsOrStr_eq, jsOrStr_eq]
  refine ⟨?_, ?_, ?_⟩
  · intro h1 h2
    simp [h1, h2]
  · intro h1
    simp [h1]
  · cases h1 : truthyS d.established_year with
    | true => simp [h1, truthyS_getD_ne _ h1]
    | false =>
      cases h2 : truthyS d.founded_year with
      | true => simp [h1, h2, truthyS_getD_ne _ h2]
      | false => simp [h1, h2]

/-- Witness for C10: a concrete record with only `founded_year = "1999"`
puts "1999" in the established-year cell. -/
theorem established_year_fallback_witness :
    (extendedRow 7 "url-img" "" dFY).getD 14 Cell.blank = Cell.str "1999" := by
  exact (established_year_fallback env0 dFY "img" none (extendedRow 7 "url-img" "" dFY)
      "✅ Data saved successfully!" rfl).1 rfl rfl
